import Mathlib

/-!
Verification development for the case-relay document pipeline.

The definitions below are a shallow embedding of the Python sources
`src/processors/document_processor.py` and `src/ai/generator.py`.
Python strings are modelled as Lean `String` (sequences of code points, so
Python `len` and slicing coincide with `String.length` and take/drop on the
character list).  String primitives used by the code (strip, split, lower,
join, substring test) are reimplemented structurally below so that every
definition evaluates inside the kernel.  The ASCII fragment of the Python
semantics is modelled; no input in this file uses non-ASCII cased letters or
exotic Unicode whitespace, and the repository code paths under study only
compare ASCII keyword strings.
-/

namespace CaseRelay

/-- Whitespace test matching the Python `str.strip` / regex `\s` class on
the ASCII range: space, tab, newline, carriage return, vertical tab and
form feed. -/
def isPySpace (c : Char) : Bool :=
  c = ' ' || c = '\t' || c = '\n' || c = '\r' || c = '\x0b' || c = '\x0c'

/-- ASCII uppercase letter test (Python `str.isupper` on one character,
restricted to ASCII). -/
def isAsciiUpper (c : Char) : Bool :=
  65 ≤ c.toNat && c.toNat ≤ 90

/-- ASCII lowercase letter test. -/
def isAsciiLower (c : Char) : Bool :=
  97 ≤ c.toNat && c.toNat ≤ 122

/-- ASCII digit test (regex `\d` for ASCII input). -/
def isAsciiDigit (c : Char) : Bool :=
  48 ≤ c.toNat && c.toNat ≤ 57

/-- Lowercase one character, ASCII fragment of Python `str.lower`. -/
def lowerChar (c : Char) : Char :=
  if isAsciiUpper c then Char.ofNat (c.toNat + 32) else c

/-- Python `s.lower()` on the ASCII fragment. -/
def pyLower (s : String) : String :=
  String.mk (s.data.map lowerChar)

/-- Python `s.strip()` on the ASCII fragment: drop leading and trailing
whitespace. -/
def pyStrip (s : String) : String :=
  String.mk (((s.data.dropWhile isPySpace).reverse.dropWhile isPySpace).reverse)

/-- Python `s.lstrip(chars)`: drop leading characters belonging to the
given set. -/
def pyLStrip (cs : List Char) (s : String) : String :=
  String.mk (s.data.dropWhile (fun c => cs.contains c))

/-- Python slice `s[:n]` for a nonnegative bound. -/
def pyTake (s : String) (n : Nat) : String :=
  String.mk (s.data.take n)

/-- Python slice `s[n:]` for a nonnegative offset (callers below only drop
clamped nonnegative offsets, matching Python slicing in those contexts). -/
def pyDrop (s : String) (n : Nat) : String :=
  String.mk (s.data.drop n)

/-- Split a character list at every character satisfying `p`, keeping empty
pieces, as Python `str.split(sep)` does for a one-character separator. -/
def splitBy (p : Char → Bool) : List Char → List (List Char)
  | [] => [[]]
  | x :: xs =>
    let r := splitBy p xs
    if p x then [] :: r
    else
      match r with
      | g :: gs => (x :: g) :: gs
      | [] => [[x]]

/-- Python `text.split(chr(10))`: split on the newline character, keeping
empty pieces. -/
def pySplitLines (s : String) : List String :=
  (splitBy (fun c => c = '\n') s.data).map String.mk

/-- Python `s.split()` with no argument: split on whitespace runs and drop
empty pieces. -/
def pySplitWs (s : String) : List String :=
  ((splitBy isPySpace s.data).filter (fun g => g ≠ [])).map String.mk

/-- Python `sep.join(parts)`. -/
def pyJoin (sep : String) : List String → String
  | [] => ""
  | [x] => x
  | x :: xs => x ++ sep ++ pyJoin sep xs

/-- Python `s.replace(a, b)` for one-character pattern and replacement:
replace every occurrence of `a` by `b`. -/
def replaceChar (a b : Char) (s : String) : String :=
  String.mk (s.data.map (fun c => if c = a then b else c))

/-- Does the list start with the given needle. -/
def listStartsWith : List Char → List Char → Bool
  | [], _ => true
  | _ :: _, [] => false
  | a :: as, b :: bs => a = b && listStartsWith as bs

/-- Does the needle occur as a contiguous sublist of the haystack. -/
def listSubstr (needle : List Char) : List Char → Bool
  | [] => needle.isEmpty
  | b :: bs => listStartsWith needle (b :: bs) || listSubstr needle bs

/-- Python membership test `needle in hay` on strings. -/
def containsSubstr (hay needle : String) : Bool :=
  listSubstr needle.data hay.data

/-- Python `s.startswith(p)`. -/
def pyStartsWith (s p : String) : Bool :=
  listStartsWith p.data s.data

/-- Python `s.endswith(c)` for a one-character suffix. -/
def endsWithChar (s : String) (c : Char) : Bool :=
  match s.data.getLast? with
  | some d => d = c
  | none => false

/-!
Structure extractor: embedding of `extract_structured_content`
(`src/processors/document_processor.py` lines 479-583).  The regex-based
entity extraction (`dates`, `organizations`, `people`) is populated from
the input text but is referenced by no claim, so the `entities` field is
omitted from the record; `title`, `sections` and `key_points` are modelled
exactly.
-/

/-- One extracted section: heading text and accumulated body. -/
structure DocSection where
  title : String
  content : String
deriving DecidableEq, Repr

/-- Regex `^#+\s+(.+)$` applied to a stripped line (which therefore
contains no newline): one or more leading hash marks, at least one
whitespace character, at least one further character. -/
def matchesMarkdownHeading (t : List Char) : Bool :=
  match t with
  | '#' :: _ =>
    match t.dropWhile (fun c => c = '#') with
    | c :: _ :: _ => isPySpace c
    | _ => false
  | _ => false

/-- Regex `^(\d+\.[\d\.]*\s+.+)$` applied to a stripped line: digits, a
dot, optional further digits and dots, at least one whitespace character,
at least one further character. -/
def matchesNumberedHeading (t : List Char) : Bool :=
  match t with
  | c :: _ =>
    if isAsciiDigit c then
      match t.dropWhile isAsciiDigit with
      | '.' :: v =>
        match v.dropWhile (fun d => isAsciiDigit d || d = '.') with
        | a :: _ :: _ => isPySpace a
        | _ => false
      | _ => false
    else false
  | [] => false

/-- Regex `^(Chapter \d+:?.*)$` applied to a stripped line: the literal
text `Chapter` and a space, then at least one digit; the optional colon and
trailing characters are absorbed by the final `.*`. -/
def matchesChapterHeading (t : List Char) : Bool :=
  listStartsWith ("Chapter ").data t &&
    (match t.drop 8 with
     | c :: _ => isAsciiDigit c
     | [] => false)

/-- Regex `^(.*:)$` applied to a stripped line: the line ends with a
colon. -/
def matchesColonHeading (t : List Char) : Bool :=
  match t.getLast? with
  | some c => c = ':'
  | none => false

/-- Regex `^([A-Z][A-Z\s]+)$` applied to a stripped line: an ASCII capital
followed by at least one character, all of which are capitals or
whitespace. -/
def matchesAllCapsHeading (t : List Char) : Bool :=
  match t with
  | c :: rest => isAsciiUpper c && !rest.isEmpty && rest.all (fun d => isAsciiUpper d || isPySpace d)
  | [] => false

/-- Heading detection of `extract_structured_content`: the five pattern
classes are tried in source order against `line.strip()`, first match
wins.  Every pattern leads to the same action, so the ordered chain is the
exact loop behaviour. -/
def isHeadingLine (line : String) : Bool :=
  let t := (pyStrip line).data
  if matchesMarkdownHeading t then true
  else if matchesNumberedHeading t then true
  else if matchesChapterHeading t then true
  else if matchesColonHeading t then true
  else matchesAllCapsHeading t

/-- Functional form of the section loop of `extract_structured_content`
(lines 521-539): on a heading line the current section is flushed when its
stripped content is non-blank and a new section titled by the stripped
line begins; any other line is appended to the current content followed by
a newline; after the loop the final section is flushed under the same
non-blank condition. -/
def sectionsLoop : List String → DocSection → List DocSection
  | [], cur => if pyStrip cur.content ≠ "" then [cur] else []
  | l :: ls, cur =>
    if isHeadingLine l then
      if pyStrip cur.content ≠ "" then cur :: sectionsLoop ls ⟨pyStrip l, ""⟩
      else sectionsLoop ls ⟨pyStrip l, ""⟩
    else sectionsLoop ls ⟨cur.title, cur.content ++ l ++ "\n"⟩

/-- First split point of `re.split` with pattern `(?<=[.!?])\s+`: keep
characters until a whitespace character immediately preceded by a sentence
terminator. -/
def firstSentenceGo (prev : Char) : List Char → List Char
  | [] => []
  | c :: rest =>
    if isPySpace c && (prev = '.' || prev = '!' || prev = '?') then []
    else c :: firstSentenceGo c rest

/-- The first element of the sentence split: the regex splits at
whitespace runs preceded by a sentence terminator (lookbehind on the
class of period, exclamation and question mark). -/
def firstSentence (content : String) : String :=
  match content.data with
  | [] => ""
  | c :: rest => String.mk (c :: firstSentenceGo c rest)

/-- Key-point seed loop (lines 562-567): a section whose stripped content
has length strictly between 10 and 200 contributes that stripped content
with newlines replaced by spaces. -/
def keyPointsBase (sections : List DocSection) : List String :=
  sections.foldl
    (fun acc s =>
      let c := pyStrip s.content
      if 10 < c.length ∧ c.length < 200 then acc ++ [replaceChar '\n' ' ' c] else acc)
    []

/-- Key-point augmentation loop (lines 570-578), entered when fewer than 3
seed points exist: for each section whose raw content exceeds 200
characters, append its first sentence when that sentence is longer than 10
characters, and stop as soon as the list reaches 5 entries. -/
def augmentLoop : List DocSection → List String → List String
  | [], acc => acc
  | s :: rest, acc =>
    if 200 < s.content.length then
      let fs := firstSentence s.content
      let acc2 := if 10 < fs.length then acc ++ [fs] else acc
      if 5 ≤ acc2.length then acc2 else augmentLoop rest acc2
    else augmentLoop rest acc

/-- Full key-point computation of `extract_structured_content` (lines
562-581): seeds, conditional augmentation, cap at 7. -/
def keyPointsOf (sections : List DocSection) : List String :=
  let base := keyPointsBase sections
  let kps := if base.length < 3 then augmentLoop sections base else base
  kps.take 7

/-- Structured content record (`title`, `sections`, `key_points`); the
claim-irrelevant `entities` sub-record is omitted, see the section header
above. -/
structure StructuredContent where
  title : Option String := none
  sections : List DocSection := []
  key_points : List String := []
deriving DecidableEq, Repr

/-- Embedding of `extract_structured_content(text, doc_type)`: empty or
very short text (stripped length below 10) yields the empty record;
otherwise the title is the first line with non-blank strip, the sections
come from the heading loop seeded with the implicit `Introduction`
section, and the key points are derived from the sections. -/
def extract_structured_content (text : String) (_doc_type : String) : StructuredContent :=
  if text = "" ∨ (pyStrip text).length < 10 then {}
  else
    let lines := pySplitLines text
    let nonEmpty := (lines.map pyStrip).filter (fun l => l ≠ "")
    let sections := sectionsLoop lines ⟨"Introduction", ""⟩
    { title := nonEmpty.head?
      sections := sections
      key_points := keyPointsOf sections }

/-!
Specification-side reformulation of the section extraction, used to settle
the partition claim: split the line list into the run of lines before the
first heading and, for each heading, the run of lines that follow it up to
the next heading.  This is written independently of the loop above and is
compared with it by the theorems below.
-/

/-- Partition a line list at heading lines: the first component is the run
of non-heading lines before the first heading, the second maps every
heading (stripped) to the run of non-heading lines following it. -/
def splitAtHeadings : List String → List String × List (String × List String)
  | [] => ([], [])
  | l :: ls =>
    let r := splitAtHeadings ls
    if isHeadingLine l then ([], (pyStrip l, r.1) :: r.2)
    else (l :: r.1, r.2)

/-- Body text of a run of lines: each line followed by a newline. -/
def contentOfLines : List String → String
  | [] => ""
  | l :: ls => l ++ "\n" ++ contentOfLines ls

/-- A candidate section is kept exactly when its body is not blank. -/
def sectionIfNonBlank (title content : String) : List DocSection :=
  if pyStrip content ≠ "" then [⟨title, content⟩] else []

/-- Sections contributed by the heading groups, in order. -/
def groupSections : List (String × List String) → List DocSection
  | [] => []
  | g :: gs => sectionIfNonBlank g.1 (contentOfLines g.2) ++ groupSections gs

/-- Specification-side section list: the implicit `Introduction` section
built from the lines before the first heading, then one candidate section
per heading, keeping only non-blank bodies. -/
def sectionsSpec (lines : List String) : List DocSection :=
  sectionIfNonBlank "Introduction" (contentOfLines (splitAtHeadings lines).1)
    ++ groupSections (splitAtHeadings lines).2

/-- The section loop computes exactly the heading-split partition, for any
pending section title and any accumulated content. -/
theorem sectionsLoop_eq_split (lines : List String) :
    ∀ (t acc : String),
      sectionsLoop lines ⟨t, acc⟩ =
        sectionIfNonBlank t (acc ++ contentOfLines (splitAtHeadings lines).1)
          ++ groupSections (splitAtHeadings lines).2 := by
  induction lines with
  | nil =>
    intro t acc
    simp [sectionsLoop, splitAtHeadings, contentOfLines, groupSections, sectionIfNonBlank]
  | cons l ls ih =>
    intro t acc
    by_cases hl : isHeadingLine l
    · by_cases hc : pyStrip acc ≠ ""
      · simp only [sectionsLoop, hl, if_true, hc, ite_true, ih (pyStrip l) "",
          splitAtHeadings, groupSections, contentOfLines, sectionIfNonBlank,
          String.empty_append, if_pos hc]
        simp [sectionIfNonBlank, hc]
      · simp only [sectionsLoop, hl, if_true, hc, ite_false, ih (pyStrip l) "",
          splitAtHeadings, groupSections, contentOfLines, sectionIfNonBlank,
          String.empty_append]
        simp only [not_not] at hc
        simp [sectionIfNonBlank, hc]
    · simp only [sectionsLoop, hl, if_false, ih t (acc ++ l ++ "\n"), splitAtHeadings,
        contentOfLines]
      rw [Bool.not_eq_true] at hl
      simp only [hl, Bool.false_eq_true, if_false, String.append_assoc]

/-- C5 (amended): for every input text whose stripped length is at least
10, the sections produced by `extract_structured_content` are exactly the
non-overlapping, order-preserving partition of the line list at detected
heading lines, with `Introduction` as the implicit title of the first
section and blank-bodied groups omitted; heading detection tries the five
ordered pattern classes with the first match winning, and every
non-heading line is appended to the current body.  The amendment restricts
the claim to texts passing the short-input guard: for empty text or
stripped length below 10 the extractor returns no sections at all (see the
counterexample). -/
theorem extract_sections_eq_spec (text : String) (dt : String)
    (h : 10 ≤ (pyStrip text).length) :
    (extract_structured_content text dt).sections = sectionsSpec (pySplitLines text) := by
  have hne : ¬ (text = "" ∨ (pyStrip text).length < 10) := by
    rintro (rfl | hlt)
    · simp [pyStrip] at h
    · omega
  simp only [extract_structured_content, hne, if_false]
  rw [sectionsLoop_eq_split]
  simp [sectionsSpec, String.empty_append]

/-!
Specification-side reformulation of the key-point computation.
-/

/-- Seed key points as a filter-map: one point per section whose stripped
content length lies strictly between 10 and 200, newlines replaced by
spaces. -/
def keyPointsBaseSpec (sections : List DocSection) : List String :=
  sections.filterMap
    (fun s =>
      let c := pyStrip s.content
      if 10 < c.length ∧ c.length < 200 then some (replaceChar '\n' ' ' c) else none)

/-- Augmentation candidates: the first sentence of every section whose raw
content exceeds 200 characters, kept when longer than 10 characters. -/
def sentenceCandidates (sections : List DocSection) : List String :=
  ((sections.filter (fun s => 200 < s.content.length)).map
      (fun s => firstSentence s.content)).filter (fun t => 10 < t.length)

/-- Amended key-point specification: the seed list; when it has fewer than
3 entries it is extended by sentence candidates up to a total of 5; the
result is capped at 7. -/
def keyPointsAmendedSpec (sections : List DocSection) : List String :=
  let base := keyPointsBaseSpec sections
  (if base.length < 3 then base ++ (sentenceCandidates sections).take (5 - base.length)
   else base).take 7

/-- The seed fold equals the filter-map formulation. -/
theorem keyPointsBase_eq_spec (sections : List DocSection) :
    keyPointsBase sections = keyPointsBaseSpec sections := by
  suffices h : ∀ (l : List DocSection) (acc : List String),
      l.foldl
        (fun acc s =>
          let c := pyStrip s.content
          if 10 < c.length ∧ c.length < 200 then acc ++ [replaceChar '\n' ' ' c] else acc)
        acc = acc ++ keyPointsBaseSpec l by
    simpa [keyPointsBase] using h sections []
  intro l
  induction l with
  | nil => intro acc; simp [keyPointsBaseSpec]
  | cons s rest ih =>
    intro acc
    by_cases hc : 10 < (pyStrip s.content).length ∧ (pyStrip s.content).length < 200
    · simp [keyPointsBaseSpec, hc, ih]
    · simp [keyPointsBaseSpec, hc, ih]

/-- The augmentation loop appends the sentence candidates in order up to a
total of 5 entries, for any accumulator shorter than 5. -/
theorem augmentLoop_eq_spec (sections : List DocSection) :
    ∀ (acc : List String), acc.length < 5 →
      augmentLoop sections acc = acc ++ (sentenceCandidates sections).take (5 - acc.length) := by
  induction sections with
  | nil => intro acc _; simp [augmentLoop, sentenceCandidates]
  | cons s rest ih =>
    intro acc hacc
    simp only [augmentLoop]
    by_cases hlong : 200 < s.content.length
    · rw [if_pos hlong]
      by_cases hfs : 10 < (firstSentence s.content).length
      · rw [if_pos hfs]
        have hcand : sentenceCandidates (s :: rest)
            = firstSentence s.content :: sentenceCandidates rest := by
          simp [sentenceCandidates, List.filter_cons, hlong, hfs]
        rw [hcand]
        by_cases hfull : 5 ≤ (acc ++ [firstSentence s.content]).length
        · rw [if_pos hfull]
          have hlen4 : acc.length = 4 := by
            simp only [List.length_append, List.length_cons, List.length_nil] at hfull
            omega
          have h1 : 5 - acc.length = 1 := by omega
          rw [h1]
          simp
        · rw [if_neg hfull]
          have hlt : (acc ++ [firstSentence s.content]).length < 5 := by omega
          rw [ih _ hlt]
          have hlen : (acc ++ [firstSentence s.content]).length = acc.length + 1 := by simp
          rw [hlen]
          have h5 : 5 - acc.length = (5 - (acc.length + 1)) + 1 := by
            simp only [List.length_append, List.length_cons, List.length_nil] at hfull
            omega
          rw [h5, List.take_succ_cons]
          simp
      · rw [if_neg hfs]
        have hcand : sentenceCandidates (s :: rest) = sentenceCandidates rest := by
          simp [sentenceCandidates, List.filter_cons, hlong, hfs]
        rw [if_neg (show ¬ 5 ≤ acc.length by omega), hcand]
        exact ih acc hacc
    · rw [if_neg hlong]
      have hcand : sentenceCandidates (s :: rest) = sentenceCandidates rest := by
        simp [sentenceCandidates, List.filter_cons, hlong]
      rw [hcand]
      exact ih acc hacc

/-- The key-point computation of the source equals the amended
specification, for every section list. -/
theorem keyPointsOf_eq_amendedSpec (sections : List DocSection) :
    keyPointsOf sections = keyPointsAmendedSpec sections := by
  by_cases h3 : (keyPointsBaseSpec sections).length < 3
  · simp only [keyPointsOf, keyPointsAmendedSpec, keyPointsBase_eq_spec, h3, if_true]
    rw [augmentLoop_eq_spec sections _ (by omega)]
  · simp only [keyPointsOf, keyPointsAmendedSpec, keyPointsBase_eq_spec, h3, if_false]

/-!
Generator embedding: `src/ai/generator.py`.

An extracted image is modelled by its identifier and caption; the raw
image bytes play no role in any claim and are elided from the record (the
selector only reads the caption, and identity is preserved through the
`id` field).
-/

/-- One extracted image (identifier and caption). -/
structure ImageData where
  id : String := ""
  caption : String := ""
deriving DecidableEq, Repr

/-- The document dictionary consumed by `generate_case_study`.  Every
field mirrors a `document_data.get(key, default)` access of the source
with the same default, so the record with all defaults models the empty
dictionary. -/
structure DocumentData where
  skip_ai_processing : Bool := false
  file_size : Nat := 0
  text : String := ""
  images : List ImageData := []
  structured_content : StructuredContent := {}
  file_type : String := ""
deriving DecidableEq, Repr

/-- The produced case study record. -/
structure CaseStudy where
  title : String
  challenge : String
  approach : String
  solution : String
  outcomes : String
  summary : String
  key_points : List String
  images : List ImageData
deriving DecidableEq, Repr

/-- The six text fields of a case-study draft as read by
`select_key_images` through `case_study.get(key, default)`; a missing key
reads as the empty string. -/
structure DraftFields where
  title : String := ""
  challenge : String := ""
  approach : String := ""
  solution : String := ""
  outcomes : String := ""
  summary : String := ""
deriving DecidableEq, Repr

/-!
Image selector: embedding of `select_key_images` (lines 641-717).

The Python score is a float, but every contribution is an integer multiple
of one half (the position score times 0.5, and integer bonuses), so the
float arithmetic is exact and the scores are represented here in
half-point units: the modelled score is exactly twice the float score, and
the descending order on the floats coincides with the descending order on
these integers.
-/

/-- Caption keywords granting the top first-page bonus. -/
def firstPageKeywords : List String := ["slide 1", "page 1", "cover"]

/-- Caption keywords granting the second-page bonus. -/
def secondPageKeywords : List String := ["slide 2", "page 2"]

/-- Caption keywords granting the early-page bonus (slides or pages 3 to
5). -/
def earlyPageKeywords : List String :=
  ["slide 3", "slide 4", "slide 5", "page 3", "page 4", "page 5"]

/-- Caption keywords suggesting a valuable diagram-like image. -/
def diagramKeywords : List String :=
  ["diagram", "chart", "graph", "figure", "process", "workflow", "infographic", "results"]

/-- Caption keywords suggesting a decorative element. -/
def decorativeKeywords : List String :=
  ["icon", "bullet", "background", "decoration"]

/-- The narrative text used for caption relevance: the six draft fields
joined by single spaces, lowercased. -/
def caseStudyText (d : DraftFields) : String :=
  pyLower (pyJoin " " [d.title, d.challenge, d.approach, d.solution, d.outcomes, d.summary])

/-- Score of the image at position `i`, in half-point units: position
score `max 0 (100 - i)` times one half, page-position caption bonuses of
100, 80 or 60, ten points per caption word longer than four characters
occurring in the narrative text, plus 50 for diagram-like captions and
minus 50 for decorative captions. -/
def imageScoreHalves (ctext : String) (i : Nat) (img : ImageData) : Int :=
  let caption := pyLower img.caption
  let position_score : Int := max 0 (100 - (i : Int))
  let s1 : Int := position_score
  let s2 : Int := s1 +
    (if firstPageKeywords.any (fun k => containsSubstr caption k) then 200
     else if secondPageKeywords.any (fun k => containsSubstr caption k) then 160
     else if earlyPageKeywords.any (fun k => containsSubstr caption k) then 120
     else 0)
  let meaningful := (pySplitWs caption).filter (fun w => 4 < w.length)
  let s3 : Int := s2 +
    (if ctext ≠ "" ∧ caption ≠ "" then
      20 * ((meaningful.filter (fun w => containsSubstr ctext w)).length : Int)
     else 0)
  let s4 : Int := s3 + (if diagramKeywords.any (fun k => containsSubstr (pyLower caption) k) then 100 else 0)
  s4 - (if decorativeKeywords.any (fun k => containsSubstr (pyLower caption) k) then 100 else 0)

/-- Pair every image with its score, tracking the enumeration index. -/
def scoreImagesFrom (ctext : String) : Nat → List ImageData → List (Int × ImageData)
  | _, [] => []
  | i, img :: rest => (imageScoreHalves ctext i img, img) :: scoreImagesFrom ctext (i + 1) rest

/-- Ranking relation for the descending stable sort: an element may come
before another exactly when its score is at least as large. -/
def imageRank (a b : Int × ImageData) : Prop := b.1 ≤ a.1

instance : DecidableRel imageRank :=
  fun a b => inferInstanceAs (Decidable (b.1 ≤ a.1))

instance : IsTotal (Int × ImageData) imageRank :=
  ⟨fun a b => le_total b.1 a.1⟩

instance : IsTrans (Int × ImageData) imageRank :=
  ⟨fun _ _ _ hab hbc => le_trans hbc hab⟩

/-- Embedding of `select_key_images(images, case_study, max_images)`: an
empty list yields an empty list; a list of at most `max_images` images is
returned unchanged; otherwise the images are scored, sorted by descending
score with ties kept in original order, and the first `max_images` are
returned.  Python `list.sort(reverse=True, key=...)` is a stable
descending sort; `List.insertionSort` with `imageRank` inserts every
earlier element before later elements of equal score, which is the same
stable descending order. -/
def select_key_images (images : List ImageData) (case_study : DraftFields) (max_images : Nat) :
    List ImageData :=
  if images = [] then []
  else if images.length ≤ max_images then images
  else
    let ctext := caseStudyText case_study
    let scored := scoreImagesFrom ctext 0 images
    ((List.insertionSort imageRank scored).take max_images).map Prod.snd

/-!
Fallback generator: embedding of `_generate_fallback_case_study`
(lines 463-639), including the presentation-specific two-pass heuristic.
-/

/-- Footer keywords that exclude a line from the slide segmentation. -/
def footerKeywords : List String :=
  ["confidential", "page", "copyright", "©", "all rights reserved", "footer"]

/-- Slide-title keywords excluded from the key-point candidates. -/
def commonTitleKeywords : List String := ["agenda", "content", "overview", "thank"]

/-- The character set of `lstrip` for bullet markers. -/
def bulletStripChars : List Char := ['•', '-', '*', ' ']

/-- Python `str.istitle` on the ASCII fragment: scan tracking whether the
previous character was cased; uppercase may only follow uncased
characters, lowercase only cased ones, and at least one cased character
must occur. -/
def pyIstitleGo : Bool → Bool → List Char → Bool
  | _, seen, [] => seen
  | prevCased, seen, c :: rest =>
    if isAsciiUpper c then
      if prevCased then false else pyIstitleGo true true rest
    else if isAsciiLower c then
      if prevCased then pyIstitleGo true true rest else false
    else pyIstitleGo false seen rest

/-- Python `s.istitle()` on the ASCII fragment. -/
def pyIstitle (s : String) : Bool :=
  pyIstitleGo false false s.data

/-- Python `s.isupper()` on the ASCII fragment: at least one cased
character and no lowercase one. -/
def pyIsupper (s : String) : Bool :=
  s.data.any isAsciiUpper && s.data.all (fun c => !isAsciiLower c)

/-- Does a stripped line look like a slide title (source lines 519-524):
at most ten words, and the line is titlecased, or uppercase, or some word
of length at least two starts with a capital. -/
def isTitleLike (line : String) : Bool :=
  let words := pySplitWs line
  words.length ≤ 10 &&
    (pyIstitle line || pyIsupper line ||
      words.any (fun w => 1 < w.length &&
        (match w.data with
         | c :: _ => isAsciiUpper c
         | [] => false)))

/-- Does a line start with a bullet marker. -/
def bulletLine (l : String) : Bool :=
  match l.data with
  | c :: _ => c = '•' || c = '-' || c = '*'
  | [] => false

/-- Insertion-ordered dictionary update `d[k] = []`: reset the value of an
existing key in place, or append a new entry. -/
def dictReset (d : List (String × List String)) (k : String) : List (String × List String) :=
  match d with
  | [] => [(k, [])]
  | (k2, v) :: rest => if k2 = k then (k2, []) :: rest else (k2, v) :: dictReset rest k

/-- Insertion-ordered dictionary update `d[k].append(x)`; in the source
the key is always present when this runs. -/
def dictAppend (d : List (String × List String)) (k : String) (x : String) :
    List (String × List String) :=
  match d with
  | [] => []
  | (k2, v) :: rest => if k2 = k then (k2, v ++ [x]) :: rest else (k2, v) :: dictAppend rest k x

/-- First pass of the presentation heuristic (lines 506-530): walk the
lines; blank and footer lines are skipped; a short line without a
trailing period that looks like a title starts a new bucket and becomes
the current title; any other line is appended to the bucket of the
current title when one exists; short non-title-like lines are dropped. -/
def pptxPass1 : List String → List String → List (String × List String) → Option String →
    List String × List (String × List String)
  | [], titles, contentMap, _ => (titles, contentMap)
  | l :: rest, titles, contentMap, cur =>
    let line := pyStrip l
    if line = "" then pptxPass1 rest titles contentMap cur
    else if footerKeywords.any (fun f => containsSubstr (pyLower line) f) then
      pptxPass1 rest titles contentMap cur
    else if line.length < 60 ∧ ¬ endsWithChar line '.' then
      if isTitleLike line then
        pptxPass1 rest (titles ++ [line]) (dictReset contentMap line) (some line)
      else pptxPass1 rest titles contentMap cur
    else
      match cur with
      | some t => pptxPass1 rest titles (dictAppend contentMap t line) cur
      | none => pptxPass1 rest titles contentMap cur

/-- The four narrative buckets filled by the second pass. -/
structure PptxBuckets where
  challenge_content : List String := []
  approach_content : List String := []
  solution_content : List String := []
  outcomes_content : List String := []
deriving DecidableEq, Repr

/-- Keywords mapping a slide title to the challenge bucket. -/
def challengeKeywords : List String :=
  ["challenge", "problem", "issue", "background", "overview", "introduction"]

/-- Keywords mapping a slide title to the approach bucket. -/
def approachKeywords : List String :=
  ["approach", "methodology", "strategy", "process", "plan"]

/-- Keywords mapping a slide title to the solution bucket. -/
def solutionKeywords : List String :=
  ["solution", "implementation", "platform", "technology", "product"]

/-- Keywords mapping a slide title to the outcomes bucket. -/
def outcomesKeywords : List String :=
  ["outcomes", "results", "benefits", "impact", "conclusion", "success"]

/-- Second pass of the presentation heuristic (lines 538-557): each
bucketed slide is assigned by keyword match on its lowercased title, and
otherwise to the first of challenge, approach and solution holding fewer
than three lines, else to outcomes. -/
def pptxPass2 : List (String × List String) → PptxBuckets → PptxBuckets
  | [], b => b
  | (t, content) :: rest, b =>
    let lt := pyLower t
    let b2 :=
      if challengeKeywords.any (fun k => containsSubstr lt k) then
        { b with challenge_content := b.challenge_content ++ content }
      else if approachKeywords.any (fun k => containsSubstr lt k) then
        { b with approach_content := b.approach_content ++ content }
      else if solutionKeywords.any (fun k => containsSubstr lt k) then
        { b with solution_content := b.solution_content ++ content }
      else if outcomesKeywords.any (fun k => containsSubstr lt k) then
        { b with outcomes_content := b.outcomes_content ++ content }
      else if b.challenge_content.length < 3 then
        { b with challenge_content := b.challenge_content ++ content }
      else if b.approach_content.length < 3 then
        { b with approach_content := b.approach_content ++ content }
      else if b.solution_content.length < 3 then
        { b with solution_content := b.solution_content ++ content }
      else { b with outcomes_content := b.outcomes_content ++ content }
    pptxPass2 rest b2

/-- The fixed three-entry key-point placeholder list. -/
def defaultKeyPoints : List String :=
  ["Document processed successfully", "Content extracted and analyzed",
   "Report generated from content"]

/-- Embedding of `_generate_fallback_case_study(document_data, audience)`:
deterministic heuristic case study.  The audience parameter is accepted
and ignored exactly as in the source. -/
def _generate_fallback_case_study (doc : DocumentData) (_audience : String) : CaseStudy :=
  let extracted_text := doc.text
  let images := doc.images
  let sc := doc.structured_content
  let title := if (sc.title.getD "") ≠ "" then sc.title.getD "" else "Document Analysis Report"
  let is_pptx := pyLower doc.file_type = "pptx"
  let sections := sc.sections
  let key_points0 := sc.key_points
  let challenge0 := "Analysis of the provided document content."
  let approach0 := "Document processing and content extraction."
  let solution0 := "Automated extraction of key information from the document."
  let outcomes0 := "Generated report based on document analysis."
  let summary0 := "This report was automatically generated from the document content."
  let p1 := if is_pptx then pptxPass1 (pySplitLines extracted_text) [] [] none else ([], [])
  let slide_titles := p1.1
  let buckets := if is_pptx then pptxPass2 p1.2 {} else {}
  let cc := buckets.challenge_content
  let ac := buckets.approach_content
  let solc := buckets.solution_content
  let oc := buckets.outcomes_content
  let challenge1 := if is_pptx ∧ cc ≠ [] then pyTake (pyJoin " " cc) 800 else challenge0
  let approach1 := if is_pptx ∧ ac ≠ [] then pyTake (pyJoin " " ac) 800 else approach0
  let solution1 := if is_pptx ∧ solc ≠ [] then pyTake (pyJoin " " solc) 800 else solution0
  let outcomes1 := if is_pptx ∧ oc ≠ [] then pyTake (pyJoin " " oc) 800 else outcomes0
  let summary_parts :=
    (if cc ≠ [] then [pyJoin " " (cc.take 2)] else []) ++
      (if solc ≠ [] then [pyJoin " " (solc.take 2)] else [])
  let summary1 := if is_pptx ∧ summary_parts ≠ [] then pyTake (pyJoin " " summary_parts) 400
    else summary0
  let all_key_points :=
    (if is_pptx ∧ slide_titles ≠ [] ∧ 3 < slide_titles.length then
      (slide_titles.filter
          (fun t => ¬ commonTitleKeywords.any (fun k => containsSubstr (pyLower t) k))).take 5
     else []) ++
    (if is_pptx then
      (cc ++ solc ++ oc).filterMap
        (fun l => if bulletLine l then some (pyLStrip bulletStripChars l) else none)
     else [])
  let key_points1 :=
    if is_pptx ∧ all_key_points ≠ [] then
      (all_key_points.filter (fun kp => 15 < kp.length ∧ kp.length < 100)).take 5
    else key_points0
  let usePositional :=
    (¬ is_pptx) ∨ (is_pptx ∧ cc = [] ∧ ac = [] ∧ solc = [] ∧ oc = [])
  let sections_content :=
    sections.filterMap (fun s => if s.content ≠ "" then some s.content else none)
  let challengeF := if usePositional ∧ sections ≠ [] ∧ 1 ≤ sections_content.length then
      pyTake (sections_content.getD 0 "") 800 else challenge1
  let approachF := if usePositional ∧ sections ≠ [] ∧ 2 ≤ sections_content.length then
      pyTake (sections_content.getD 1 "") 800 else approach1
  let solutionF := if usePositional ∧ sections ≠ [] ∧ 3 ≤ sections_content.length then
      pyTake (sections_content.getD 2 "") 800 else solution1
  let outcomesF := if usePositional ∧ sections ≠ [] ∧ 4 ≤ sections_content.length then
      pyTake (sections_content.getD 3 "") 800 else outcomes1
  let summaryF := if usePositional ∧ sections ≠ [] then
      pyJoin " " ((sections_content.take 3).map (fun c => pyTake c 150)) else summary1
  let draft : DraftFields :=
    { challenge := challengeF, approach := approachF, solution := solutionF,
      outcomes := outcomesF }
  let selected := select_key_images images draft 3
  { title := title
    challenge := challengeF
    approach := approachF
    solution := solutionF
    outcomes := outcomesF
    summary := summaryF
    key_points := if key_points1 ≠ [] then key_points1 else defaultKeyPoints
    images := selected }

/-!
Large-input truncation of `generate_case_study` (lines 82-134).
-/

/-- The explicit truncation marker inserted between positional segments
for moderately large text. -/
def truncationMarker : String := "[...content truncated...]"

/-- The truncation marker variant inserted for very large text. -/
def truncationMarkerMost : String := "[...most content truncated...]"

/-- Compact representation built from structured sections (lines 90-118):
the first five sections, three middle sections when more than fifteen
exist, and the last five, each rendered as a markdown-style block with the
content capped at 600 characters; blocks with a blank title or blank
content are skipped. -/
def compactOfSections (sections : List DocSection) : String :=
  let n := sections.length
  let keep := sections.take 5
    ++ (if 15 < n then (sections.drop (n / 3)).take 3 else [])
    ++ sections.drop (n - 5)
  keep.foldl
    (fun acc s =>
      if s.title ≠ "" ∧ s.content ≠ "" then
        acc ++ "\n## " ++ s.title ++ "\n" ++ pyTake s.content 600 ++ "\n"
      else acc)
    ""

/-- Positional truncation (lines 120-134): the first 10000 characters,
then for text below 100000 characters a 2000-character middle slice and
the last 5000 characters with the truncation marker between segments, and
for larger text just the last 5000 characters after the stronger marker.
Callers only reach this with text longer than 20000 characters, so the
slice arithmetic never clamps. -/
def positionalTruncate (text : String) : String :=
  let first_part := pyTake text 10000
  if text.length < 100000 then
    let middle_start := text.length / 2 - 1000
    let middle_part := pyTake (pyDrop text middle_start) 2000
    let last_part := pyDrop text (text.length - 5000)
    first_part ++ "\n\n" ++ truncationMarker ++ "\n\n" ++ middle_part
      ++ "\n\n" ++ truncationMarker ++ "\n\n" ++ last_part
  else
    first_part ++ "\n\n" ++ truncationMarkerMost ++ "\n\n"
      ++ pyDrop text (text.length - 5000)

/-- The large-input branch (lines 84-134): with more than five structured
sections the compact representation replaces the text when it exceeds
1000 characters (otherwise the text is left untruncated); with at most
five sections the positional truncation applies. -/
def largeInputText (text : String) (sections : List DocSection) : String :=
  if sections ≠ [] ∧ 5 < sections.length then
    let compact := compactOfSections sections
    if 1000 < compact.length then compact else text
  else positionalTruncate text

/-- The text handed to the generative backend for a document that reaches
the generative attempt: the large-input truncation applies beyond 20000
characters. -/
def aiInputOf (doc : DocumentData) : String :=
  if 20000 < doc.text.length then
    largeInputText doc.text doc.structured_content.sections
  else doc.text

/-!
Generative backend interface and orchestrator.

The backend abstraction follows section 6 of the specification: a
text-completion call that, given the prepared text, the audience and the
large-input flag, either returns a parsed structured payload or fails.
The failure constructors model, in order, a response body that fails JSON
parsing, the timeout, connection and rate-limit error classes raised by
the client, any other exception, and a call that never finishes before
the watchdog join timeout expires.  `none` in `Option Backend` models the
unconfigured client (`openai is None`).
-/

/-- A schema-conforming parsed backend response. -/
structure GenPayload where
  title : String
  challenge : String
  approach : String
  solution : String
  outcomes : String
  summary : String
  key_points : List String
deriving DecidableEq, Repr

/-- Outcome of one generative call. -/
inductive BackendOutcome where
  | ok (payload : GenPayload)
  | malformed
  | errTimeout
  | errConnection
  | errRateLimit
  | errOther
  | hang
deriving DecidableEq, Repr

/-- Is the outcome anything but a parsed successful payload. -/
def BackendOutcome.isFailure : BackendOutcome → Bool
  | .ok _ => false
  | _ => true

/-- The generative call abstraction: prepared text, audience and
large-input flag determine the outcome. -/
def Backend : Type := String → String → Bool → BackendOutcome

/-- The draft passed to the image selector on the successful generative
path is the payload itself. -/
def draftOfPayload (p : GenPayload) : DraftFields :=
  { title := p.title, challenge := p.challenge, approach := p.approach,
    solution := p.solution, outcomes := p.outcomes, summary := p.summary }

/-- The case study assembled on the successful generative path: the
payload fields with the selected images attached. -/
def aiResultWithImages (p : GenPayload) (images : List ImageData) : CaseStudy :=
  { title := p.title
    challenge := p.challenge
    approach := p.approach
    solution := p.solution
    outcomes := p.outcomes
    summary := p.summary
    key_points := p.key_points
    images := select_key_images images (draftOfPayload p) 3 }

/-- Result of one orchestrated generation: the produced case study and the
list of texts passed to the generative backend, in call order. -/
structure GenTrace where
  result : CaseStudy
  backendCalls : List String
deriving DecidableEq, Repr

/-- Embedding of `generate_case_study(document_data, audience)` (lines
36-191) with the backend calls made observable.

`none` for the document models a `None` or non-dictionary argument; the
empty dictionary is modelled by the all-default record (Python treats the
empty dictionary as falsy and routes it to the same fallback call that the
empty-text guard would reach, so both give the fallback of the empty
document).

The guards run in source order: the skip flag, the 100 MB file-size cap,
missing text, and the 200000-character hard cap each route directly to
the fallback generator without any backend call.  Otherwise the prepared
(possibly truncated) text is passed to the backend worker; every
non-success outcome - unparseable response, timeout, connection error,
rate-limit error, other exception, or a worker that outlives the join
timeout - resolves to the fallback generator applied to the original
document.  The code after the `try` block of the source (lines 193-343,
including its retry loop) is unreachable, because every path of the
`try` and `except` bodies returns; it is therefore not part of the
embedding. -/
def generateRun (backend : Option Backend) (document_data : Option DocumentData)
    (audience : String) : GenTrace :=
  match document_data with
  | none => ⟨_generate_fallback_case_study {} audience, []⟩
  | some doc =>
    if doc.skip_ai_processing then ⟨_generate_fallback_case_study doc audience, []⟩
    else if 104857600 < doc.file_size then ⟨_generate_fallback_case_study doc audience, []⟩
    else if doc.text = "" then ⟨_generate_fallback_case_study doc audience, []⟩
    else if 200000 < doc.text.length then ⟨_generate_fallback_case_study doc audience, []⟩
    else
      let is_large_input : Bool := decide (20000 < doc.text.length)
      let input := aiInputOf doc
      match backend with
      | none => ⟨_generate_fallback_case_study doc audience, []⟩
      | some b =>
        match b input audience is_large_input with
        | .ok p => ⟨aiResultWithImages p doc.images, [input]⟩
        | _ => ⟨_generate_fallback_case_study doc audience, [input]⟩

/-- The case study returned by `generate_case_study`. -/
def generate_case_study (backend : Option Backend) (document_data : Option DocumentData)
    (audience : String) : CaseStudy :=
  (generateRun backend document_data audience).result

/-!
PDF dispatch fragment of `process_document`
(`src/processors/document_processor.py` lines 71-117 and 249-285).

The PDF parser itself is environment behaviour; it is abstracted by the
text and images the extraction would produce, while the size thresholds,
the skip flag and the skip-images plumbing are modelled exactly.  The
exception-recovery paths (lines 99-117) concern parser failures and are
outside this fragment.
-/

/-- Abstract content of a PDF file: its size on disk, the text the parser
extracts and the images the image-extraction path would produce. -/
structure PdfFile where
  file_size : Nat := 0
  text : String := ""
  extractedImages : List ImageData := []
deriving DecidableEq, Repr

/-- What `process_pdf(filepath, skip_images)` returns (lines 249-285 and
399-406): with `skip_images` set it returns the text with no images
before any image extraction is attempted; otherwise the extracted
images are included. -/
def process_pdf (f : PdfFile) (skip_images : Bool) :
    String × List ImageData × StructuredContent :=
  if skip_images then (f.text, [], extract_structured_content f.text "pdf")
  else (f.text, f.extractedImages, extract_structured_content f.text "pdf")

/-- Result of the PDF branch of `process_document`. -/
structure PdfBranchResult where
  text : String
  images : List ImageData
  structured_content : StructuredContent
  skip_ai_processing : Bool
  status : String
  error : Option String
deriving DecidableEq, Repr

/-- Embedding of the PDF branch of `process_document` (lines 71-98): the
large threshold is 15 MB and the very-large threshold 25 MB; only the
very-large test forces `skip_images`, and the large test sets the
`skip_ai_processing` flag on the result. -/
def process_document_pdf (f : PdfFile) : PdfBranchResult :=
  let is_large_file := 15728640 < f.file_size
  let is_very_large_file := 26214400 < f.file_size
  let skip_image_extraction := is_very_large_file
  let processed := process_pdf f skip_image_extraction
  { text := processed.1
    images := processed.2.1
    structured_content := processed.2.2
    skip_ai_processing := is_large_file
    status := "success"
    error := none }

/-!
TXT branch of `process_document` (lines 184-211).

The source opens the file with `encoding=utf-8, errors=replace`, which
substitutes the replacement character for invalid byte sequences and
never raises `UnicodeDecodeError`; the `except UnicodeDecodeError`
handler that would try latin-1, iso-8859-1 and windows-1252 and finally
raise a fatal error is therefore unreachable, and the branch always
succeeds with the replacement-decoded text.
-/

/-- Is the byte a UTF-8 continuation byte. -/
def isUtf8Cont (b : UInt8) : Bool := 0x80 ≤ b && b ≤ 0xBF

/-- One step of replacement-policy UTF-8 decoding with explicit fuel (one
unit per input byte, so the fuel never runs out when started at the input
length): each maximal prefix of a valid multi-byte sequence that cannot
be completed is replaced by one replacement character, and decoding
resumes at the first offending byte. -/
def utf8DecodeReplaceGo : Nat → List UInt8 → List Char
  | 0, _ => []
  | _ + 1, [] => []
  | fuel + 1, b :: rest =>
    if b ≤ 0x7F then Char.ofNat b.toNat :: utf8DecodeReplaceGo fuel rest
    else if 0xC2 ≤ b && b ≤ 0xDF then
      match rest with
      | c1 :: rest1 =>
        if isUtf8Cont c1 then
          Char.ofNat ((b.toNat - 0xC0) * 64 + (c1.toNat - 0x80))
            :: utf8DecodeReplaceGo fuel rest1
        else '�' :: utf8DecodeReplaceGo fuel rest
      | [] => ['�']
    else if 0xE0 ≤ b && b ≤ 0xEF then
      match rest with
      | c1 :: rest1 =>
        if (b = 0xE0 && 0xA0 ≤ c1 && c1 ≤ 0xBF)
            || (0xE1 ≤ b && b ≤ 0xEC && isUtf8Cont c1)
            || (b = 0xED && 0x80 ≤ c1 && c1 ≤ 0x9F)
            || (0xEE ≤ b && isUtf8Cont c1) then
          match rest1 with
          | c2 :: rest2 =>
            if isUtf8Cont c2 then
              Char.ofNat ((b.toNat - 0xE0) * 4096 + (c1.toNat - 0x80) * 64 + (c2.toNat - 0x80))
                :: utf8DecodeReplaceGo fuel rest2
            else '�' :: utf8DecodeReplaceGo fuel rest1
          | [] => ['�']
        else '�' :: utf8DecodeReplaceGo fuel rest
      | [] => ['�']
    else if 0xF0 ≤ b && b ≤ 0xF4 then
      match rest with
      | c1 :: rest1 =>
        if (b = 0xF0 && 0x90 ≤ c1 && c1 ≤ 0xBF)
            || (0xF1 ≤ b && b ≤ 0xF3 && isUtf8Cont c1)
            || (b = 0xF4 && 0x80 ≤ c1 && c1 ≤ 0x8F) then
          match rest1 with
          | c2 :: rest2 =>
            if isUtf8Cont c2 then
              match rest2 with
              | c3 :: rest3 =>
                if isUtf8Cont c3 then
                  Char.ofNat ((b.toNat - 0xF0) * 262144 + (c1.toNat - 0x80) * 4096
                      + (c2.toNat - 0x80) * 64 + (c3.toNat - 0x80))
                    :: utf8DecodeReplaceGo fuel rest3
                else '�' :: utf8DecodeReplaceGo fuel rest2
              | [] => ['�']
            else '�' :: utf8DecodeReplaceGo fuel rest1
          | [] => ['�']
        else '�' :: utf8DecodeReplaceGo fuel rest
      | [] => ['�']
    else '�' :: utf8DecodeReplaceGo fuel rest

/-- UTF-8 decoding with the Python `errors=replace` policy. -/
def utf8DecodeReplace (bytes : List UInt8) : List Char :=
  utf8DecodeReplaceGo bytes.length bytes

/-- Latin-1 decoding: every byte maps to the character of the same code
point, so it succeeds on every byte sequence.  This is the first entry of
the fallback-encoding list of the dead handler. -/
def latin1Decode (bytes : List UInt8) : String :=
  String.mk (bytes.map (fun b => Char.ofNat b.toNat))

/-- Result of the TXT branch. -/
structure TxtBranchResult where
  text : String
  structured_content : StructuredContent
  status : String
  error : Option String
deriving DecidableEq, Repr

/-- Embedding of the TXT branch of `process_document` (lines 184-211): the
replacement-policy UTF-8 decode always succeeds, so the result always has
status success and carries the decoded text; the legacy-encoding
fallback chain and the fatal decode error of the source are dead code. -/
def process_document_txt (bytes : List UInt8) : TxtBranchResult :=
  let text_content := String.mk (utf8DecodeReplace bytes)
  { text := text_content
    structured_content := extract_structured_content text_content "txt"
    status := "success"
    error := none }

/-!
Substring lemmas for the truncation-marker claims.
-/

/-- A list starts with itself followed by anything. -/
theorem listStartsWith_append (m r : List Char) : listStartsWith m (m ++ r) = true := by
  induction m with
  | nil => rfl
  | cons c cs ih => simp [listStartsWith, ih]

/-- A list occurs in itself followed by anything. -/
theorem listSubstr_self_append (m r : List Char) : listSubstr m (m ++ r) = true := by
  cases m with
  | nil =>
    cases r with
    | nil => rfl
    | cons c cs => simp [listSubstr, listStartsWith]
  | cons c cs =>
    have h := listStartsWith_append (c :: cs) r
    rw [List.cons_append] at h
    simp [listSubstr, h]

/-- Occurrence is preserved by prepending. -/
theorem listSubstr_append_left (p m h : List Char) (hs : listSubstr m h = true) :
    listSubstr m (p ++ h) = true := by
  induction p with
  | nil => simpa using hs
  | cons c cs ih =>
    simp [listSubstr, ih]

/-- String version: occurrence is preserved by prepending. -/
theorem containsSubstr_append_left (s t m : String)
    (h : containsSubstr t m = true) : containsSubstr (s ++ t) m = true := by
  unfold containsSubstr at *
  rw [String.data_append]
  exact listSubstr_append_left s.data m.data t.data h

/-- String version: a string occurs in itself followed by anything. -/
theorem containsSubstr_self_append (m t : String) : containsSubstr (m ++ t) m = true := by
  unfold containsSubstr
  rw [String.data_append]
  exact listSubstr_self_append m.data t.data

/-!
Orchestrator helper lemmas.
-/

/-- Length of a string built from an explicit character list. -/
theorem strLength_mk (l : List Char) : (String.mk l).length = l.length := rfl

/-- When every size guard passes and the backend call fails (in any way),
the orchestrator returns the fallback of the original document and
records exactly one backend call carrying the prepared text. -/
theorem generateRun_failure (b : Backend) (doc : DocumentData) (aud : String)
    (h1 : doc.skip_ai_processing = false)
    (h2 : doc.file_size ≤ 104857600)
    (h3 : doc.text ≠ "")
    (h4 : doc.text.length ≤ 200000)
    (hfail : (b (aiInputOf doc) aud (decide (20000 < doc.text.length))).isFailure = true) :
    generateRun (some b) (some doc) aud
      = ⟨_generate_fallback_case_study doc aud, [aiInputOf doc]⟩ := by
  simp only [generateRun, h1, Bool.false_eq_true, if_false,
    if_neg (by omega : ¬ 104857600 < doc.file_size), if_neg h3,
    if_neg (by omega : ¬ 200000 < doc.text.length)]
  cases hout : b (aiInputOf doc) aud (decide (20000 < doc.text.length)) with
  | ok p => rw [hout] at hfail; simp [BackendOutcome.isFailure] at hfail
  | malformed => rfl
  | errTimeout => rfl
  | errConnection => rfl
  | errRateLimit => rfl
  | errOther => rfl
  | hang => rfl

/-!
Claim theorems.
-/

/-- C5 counterexample: the claim as stated quantifies over every input
text, but for the nine-character-or-shorter stripped text `abc` the
extractor returns no sections while the heading-split partition has the
`Introduction` section containing the line. -/
theorem extract_sections_counterexample :
    (extract_structured_content "abc" "txt").sections ≠ sectionsSpec (pySplitLines "abc") := by
  decide

/-- C5 witness: the amended theorem applied to a concrete three-line text
with one colon heading. -/
theorem extract_sections_eq_spec_witness :
    (extract_structured_content "Intro line one\nRESULTS:\nGood output here." "txt").sections
      = sectionsSpec (pySplitLines "Intro line one\nRESULTS:\nGood output here.") :=
  extract_sections_eq_spec "Intro line one\nRESULTS:\nGood output here." "txt" (by decide)

/-- Key-point procedure exactly as the claim words it: short-section
bodies taken verbatim (stripped but with their newlines intact) and the
first sentence of every long section added without any length condition
on that sentence. -/
def keyPointsClaimSpec (sections : List DocSection) : List String :=
  let base := sections.filterMap
    (fun s =>
      let c := pyStrip s.content
      if 10 < c.length ∧ c.length < 200 then some c else none)
  (if base.length < 3 then
    base ++ (((sections.filter (fun s => 200 < s.content.length)).map
        (fun s => firstSentence s.content)).take (5 - base.length))
   else base).take 7

/-- C6 counterexample: a two-line section whose stripped body falls in the
10..200 window is contributed with its newline replaced by a space, not
verbatim, so the key points differ from the claim-literal procedure. -/
theorem key_points_claim_counterexample :
    (extract_structured_content "hello\nworld pie" "txt").key_points
      ≠ keyPointsClaimSpec ((extract_structured_content "hello\nworld pie" "txt").sections) := by
  decide

/-- C6 (amended): for every input text, the key points equal the
procedure: each section whose stripped body length is strictly between 10
and 200 contributes that body with newlines replaced by spaces; if fewer
than 3 such points exist, the first sentence of each section whose raw
content exceeds 200 characters is appended, provided that sentence is
longer than 10 characters, until the list reaches 5; the final list is
capped at 7.  The amendment replaces verbatim contribution by the
newline-to-space normalisation and adds the length condition on appended
first sentences. -/
theorem extract_key_points_eq_amended (text dt : String) :
    (extract_structured_content text dt).key_points
      = keyPointsAmendedSpec ((extract_structured_content text dt).sections) := by
  by_cases h : text = "" ∨ (pyStrip text).length < 10
  · simp [extract_structured_content, h, keyPointsAmendedSpec, keyPointsBaseSpec,
      sentenceCandidates]
  · simp only [extract_structured_content, h, if_false]
    exact keyPointsOf_eq_amendedSpec _

/-- C7: image selection.  A list of at most `max_images` images is
returned unchanged in order; otherwise the result is the first
`max_images` entries of the stable descending sort of the scored images,
and every selected image scores at least as high as every non-selected
one; in the concrete scenario with four images where one caption contains
`diagram` and the others are generic, the diagram image is among the
returned top 3. -/
theorem select_key_images_spec (images : List ImageData) (cs : DraftFields) (max_images : Nat) :
    (images.length ≤ max_images → select_key_images images cs max_images = images)
    ∧ (max_images < images.length →
        select_key_images images cs max_images
          = ((List.insertionSort imageRank
              (scoreImagesFrom (caseStudyText cs) 0 images)).take max_images).map Prod.snd
        ∧ ∀ a ∈ (List.insertionSort imageRank
              (scoreImagesFrom (caseStudyText cs) 0 images)).take max_images,
            ∀ b ∈ (List.insertionSort imageRank
              (scoreImagesFrom (caseStudyText cs) 0 images)).drop max_images,
              b.1 ≤ a.1)
    ∧ (⟨"d", "architecture diagram"⟩ : ImageData) ∈ select_key_images
        [⟨"a", "team photo"⟩, ⟨"b", "office"⟩, ⟨"c", "city"⟩,
         ⟨"d", "architecture diagram"⟩] {} 3 := by
  refine ⟨?_, ?_, by decide⟩
  · intro h
    by_cases he : images = []
    · subst he; simp [select_key_images]
    · simp [select_key_images, he, h]
  · intro h
    have he : images ≠ [] := by
      intro hcon; subst hcon; simp at h
    have hnle : ¬ images.length ≤ max_images := by omega
    constructor
    · simp [select_key_images, he, hnle]
    · have hsorted : List.Sorted imageRank
          (List.insertionSort imageRank (scoreImagesFrom (caseStudyText cs) 0 images)) :=
        List.sorted_insertionSort imageRank _
      have hsplit := List.take_append_drop max_images
        (List.insertionSort imageRank (scoreImagesFrom (caseStudyText cs) 0 images))
      rw [List.Sorted, ← hsplit, List.pairwise_append] at hsorted
      intro a ha b hb
      exact hsorted.2.2 a ha b hb

/-- C7 witness: the first conjunct applied to a concrete two-image list,
and the closed diagram scenario from the third conjunct. -/
theorem select_key_images_spec_witness :
    select_key_images [⟨"x", "one"⟩, ⟨"y", "two"⟩] {} 3 = [⟨"x", "one"⟩, ⟨"y", "two"⟩]
    ∧ (⟨"d", "architecture diagram"⟩ : ImageData) ∈ select_key_images
        [⟨"a", "team photo"⟩, ⟨"b", "office"⟩, ⟨"c", "city"⟩,
         ⟨"d", "architecture diagram"⟩] {} 3 :=
  ⟨(select_key_images_spec [⟨"x", "one"⟩, ⟨"y", "two"⟩] {} 3).1 (by decide),
   (select_key_images_spec [] {} 0).2.2⟩

/-- C10: called with a `None` or non-dictionary value, or with the empty
dictionary, the generator still returns the complete placeholder case
study without any backend call: the fixed title, the five placeholder
section strings, the default three-entry key-point list and no images. -/
theorem generate_case_study_degenerate_input (backend : Option Backend) (aud : String) :
    generate_case_study backend none aud =
      { title := "Document Analysis Report"
        challenge := "Analysis of the provided document content."
        approach := "Document processing and content extraction."
        solution := "Automated extraction of key information from the document."
        outcomes := "Generated report based on document analysis."
        summary := "This report was automatically generated from the document content."
        key_points := ["Document processed successfully", "Content extracted and analyzed",
          "Report generated from content"]
        images := [] }
    ∧ generate_case_study backend (some {}) aud = generate_case_study backend none aud
    ∧ (generateRun backend none aud).backendCalls = []
    ∧ (generateRun backend (some {}) aud).backendCalls = [] :=
  ⟨rfl, rfl, rfl, rfl⟩

/-- C1: for every document value, audience and backend configuration, the
generator always returns a complete case study: either the assembled
successful backend payload with selected images attached, or the fallback
result for the original document; and whenever every backend response is
a failure of any class (unparseable response, timeout, connection error,
rate limit, other error, or hang) - including the unconfigured backend -
the result is exactly the deterministic fallback result.  The six text
fields are total `String` fields of the returned record in both cases, so
they are never null. -/
theorem generate_case_study_total_and_fallback
    (backend : Option Backend) (d : Option DocumentData) (aud : String) :
    ((∃ p : GenPayload,
        generate_case_study backend d aud = aiResultWithImages p (d.getD {}).images)
      ∨ generate_case_study backend d aud = _generate_fallback_case_study (d.getD {}) aud)
    ∧ ((∀ b : Backend, backend = some b → ∀ s a l, (b s a l).isFailure = true) →
        generate_case_study backend d aud = _generate_fallback_case_study (d.getD {}) aud) := by
  constructor
  · match d with
    | none => exact Or.inr rfl
    | some doc =>
      simp only [generate_case_study, generateRun, Option.getD_some]
      split_ifs with h1 h2 h3 h4
      · exact Or.inr rfl
      · exact Or.inr rfl
      · exact Or.inr rfl
      · exact Or.inr rfl
      · match backend with
        | none => exact Or.inr rfl
        | some b =>
          cases hout : b (aiInputOf doc) aud (decide (20000 < doc.text.length)) with
          | ok p => exact Or.inl ⟨p, by simp [hout]⟩
          | malformed => simp [hout]
          | errTimeout => simp [hout]
          | errConnection => simp [hout]
          | errRateLimit => simp [hout]
          | errOther => simp [hout]
          | hang => simp [hout]
  · intro hfail
    match d with
    | none => rfl
    | some doc =>
      simp only [generate_case_study, generateRun, Option.getD_some]
      split_ifs with h1 h2 h3 h4
      · rfl
      · rfl
      · rfl
      · rfl
      · match backend with
        | none => rfl
        | some b =>
          cases hout : b (aiInputOf doc) aud (decide (20000 < doc.text.length)) with
          | ok p =>
            have hh := hfail b rfl (aiInputOf doc) aud (decide (20000 < doc.text.length))
            rw [hout] at hh
            simp [BackendOutcome.isFailure] at hh
          | malformed => simp [hout]
          | errTimeout => simp [hout]
          | errConnection => simp [hout]
          | errRateLimit => simp [hout]
          | errOther => simp [hout]
          | hang => simp [hout]

/-- C1 witness: a backend that always raises a connection error resolves
to the fallback result on a concrete document. -/
theorem generate_case_study_total_and_fallback_witness :
    generate_case_study (some (fun _ _ _ => BackendOutcome.errConnection))
        (some { text := "short document text here" }) "general"
      = _generate_fallback_case_study { text := "short document text here" } "general" :=
  (generate_case_study_total_and_fallback
      (some (fun _ _ _ => BackendOutcome.errConnection))
      (some { text := "short document text here" }) "general").2
    (fun _ hb => by cases hb; exact fun _ _ _ => rfl)

/-- C2: a document flagged to skip generative processing, or whose text
exceeds the 200000-character hard cap, or whose recorded file size
exceeds 100 MB, is routed directly to the fallback generator and no
backend call is attempted. -/
theorem size_check_routes_to_fallback
    (backend : Option Backend) (doc : DocumentData) (aud : String)
    (h : doc.skip_ai_processing = true ∨ 200000 < doc.text.length
      ∨ 104857600 < doc.file_size) :
    generate_case_study backend (some doc) aud = _generate_fallback_case_study doc aud
    ∧ (generateRun backend (some doc) aud).backendCalls = [] := by
  simp only [generate_case_study, generateRun]
  split_ifs with h1 h2 h3 h4
  · exact ⟨rfl, rfl⟩
  · exact ⟨rfl, rfl⟩
  · exact ⟨rfl, rfl⟩
  · exact ⟨rfl, rfl⟩
  · exfalso
    rcases h with h | h | h
    · exact h1 (by simp [h])
    · exact h4 h
    · exact h2 h

/-- The 250000-character text used by the C2 scenario. -/
def doc250k : DocumentData := { text := String.mk (List.replicate 250000 'a') }

/-- The scenario text has exactly 250000 characters. -/
theorem doc250k_text_length : doc250k.text.length = 250000 := by
  rw [show doc250k.text = String.mk (List.replicate 250000 'a') from rfl, strLength_mk,
    List.length_replicate]

/-- C2 witness: with a configured backend that would succeed and a
250000-character text, the size check routes directly to the fallback and
no backend call occurs. -/
theorem size_check_routes_to_fallback_witness :
    generate_case_study (some (fun _ _ _ => BackendOutcome.ok ⟨"T", "C", "A", "S", "O", "Su", []⟩))
        (some doc250k) "general" = _generate_fallback_case_study doc250k "general"
    ∧ (generateRun (some (fun _ _ _ => BackendOutcome.ok ⟨"T", "C", "A", "S", "O", "Su", []⟩))
        (some doc250k) "general").backendCalls = [] :=
  size_check_routes_to_fallback _ _ _
    (Or.inr (Or.inl (by rw [doc250k_text_length]; omega)))

/-- C4: when the backend raises a rate-limit error on the first attempt,
the orchestrator performs no retry - the recorded call list is exactly
the one prepared input - and the fallback generator is invoked on the
original document record, whose text field is the raw untruncated text
(truncation only affects the prepared backend input). -/
theorem rate_limit_no_retry_fallback_original (b : Backend) (doc : DocumentData) (aud : String)
    (h1 : doc.skip_ai_processing = false)
    (h2 : doc.file_size ≤ 104857600)
    (h3 : doc.text ≠ "")
    (h4 : doc.text.length ≤ 200000)
    (h5 : b (aiInputOf doc) aud (decide (20000 < doc.text.length))
      = BackendOutcome.errRateLimit) :
    generateRun (some b) (some doc) aud
      = ⟨_generate_fallback_case_study doc aud, [aiInputOf doc]⟩ :=
  generateRun_failure b doc aud h1 h2 h3 h4 (by rw [h5]; rfl)

/-- C4 witness: a backend that always rate-limits, on a concrete small
document. -/
theorem rate_limit_no_retry_fallback_original_witness :
    generateRun (some (fun _ _ _ => BackendOutcome.errRateLimit))
        (some { text := "some document text" }) "general"
      = ⟨_generate_fallback_case_study { text := "some document text" } "general",
         [aiInputOf { text := "some document text" }]⟩ :=
  rate_limit_no_retry_fallback_original _ _ _ rfl (by decide) (by decide) (by decide) rfl

/-- A 20001-character text, just over the large-input threshold. -/
def bigText20001 : String := String.mk (List.replicate 20001 'a')

/-- Its length. -/
theorem bigText20001_length : bigText20001.length = 20001 := by
  rw [show bigText20001 = String.mk (List.replicate 20001 'a') from rfl, strLength_mk,
    List.length_replicate]

/-- Six structured sections whose compact rendering exceeds the
1000-character usefulness bound. -/
def sixSections : List DocSection :=
  [⟨"T1", String.mk (List.replicate 100 'b')⟩, ⟨"T2", String.mk (List.replicate 100 'b')⟩,
   ⟨"T3", String.mk (List.replicate 100 'b')⟩, ⟨"T4", String.mk (List.replicate 100 'b')⟩,
   ⟨"T5", String.mk (List.replicate 100 'b')⟩, ⟨"T6", String.mk (List.replicate 100 'b')⟩]

/-- A document that takes the structured compact truncation path: text
over the 20000-character threshold and six sections with long bodies. -/
def docCompact : DocumentData :=
  { text := bigText20001, structured_content := { sections := sixSections } }

set_option maxRecDepth 20000 in
/-- On this document the text prepared for the backend is the compact
section rendering. -/
theorem docCompact_input : aiInputOf docCompact = compactOfSections sixSections := by
  have h1 : 20000 < docCompact.text.length := by
    rw [show docCompact.text = bigText20001 from rfl, bigText20001_length]
    omega
  have h2 : (1000 : Nat) < (compactOfSections sixSections).length := by decide
  unfold aiInputOf
  rw [if_pos h1, show docCompact.structured_content.sections = sixSections from rfl]
  unfold largeInputText
  rw [if_pos (show sixSections ≠ [] ∧ 5 < sixSections.length by decide)]
  show (if 1000 < (compactOfSections sixSections).length then compactOfSections sixSections
    else docCompact.text) = compactOfSections sixSections
  rw [if_pos h2]

set_option maxRecDepth 20000 in
/-- C3 counterexample: on the structured compact truncation path the text
passed to the generative backend is the compact section rendering, which
differs from the original text (truncation did occur) and contains
neither truncation marker, refuting the claim that every truncated text
passed to the backend contains the literal marker substring. -/
theorem truncation_marker_counterexample :
    (generateRun (some (fun _ _ _ => BackendOutcome.errOther))
        (some docCompact) "general").backendCalls = [compactOfSections sixSections]
    ∧ compactOfSections sixSections ≠ docCompact.text
    ∧ containsSubstr (compactOfSections sixSections) truncationMarker = false
    ∧ containsSubstr (compactOfSections sixSections) truncationMarkerMost = false := by
  have hlen : docCompact.text.length = 20001 := by
    rw [show docCompact.text = bigText20001 from rfl, bigText20001_length]
  refine ⟨?_, ?_, by decide, by decide⟩
  · have hrun := generateRun_failure (fun _ _ _ => BackendOutcome.errOther) docCompact "general"
      rfl (by rw [show docCompact.file_size = 0 from rfl]; omega)
      (by
        intro hcon
        have h0 := congrArg String.length hcon
        rw [hlen] at h0
        rw [show ("" : String).length = 0 from rfl] at h0
        omega)
      (by omega)
      rfl
    rw [hrun, docCompact_input]
  · intro hcon
    have h0 := congrArg String.length hcon
    rw [hlen] at h0
    have h1 : (compactOfSections sixSections).length = 1080 := by decide
    omega

/-- Every positional truncation result contains a truncation marker. -/
theorem positionalTruncate_marker (text : String) :
    containsSubstr (positionalTruncate text) truncationMarker = true
    ∨ containsSubstr (positionalTruncate text) truncationMarkerMost = true := by
  simp only [positionalTruncate]
  by_cases h : text.length < 100000
  · rw [if_pos h]
    left
    simp only [String.append_assoc]
    apply containsSubstr_append_left
    apply containsSubstr_append_left
    exact containsSubstr_self_append _ _
  · rw [if_neg h]
    right
    simp only [String.append_assoc]
    apply containsSubstr_append_left
    apply containsSubstr_append_left
    exact containsSubstr_self_append _ _

/-- C3 (amended): whenever the generator truncates through the positional
first/middle/last path - that is, for large text with at most five
structured sections - every text passed to the generative backend
contains a literal truncation marker.  The amendment drops the structured
compact path from the claim: that path replaces the text by the compact
section rendering, which carries no marker (see the counterexample). -/
theorem positional_truncation_marker (b : Backend) (doc : DocumentData) (aud : String)
    (hL : 20000 < doc.text.length)
    (hsec : doc.structured_content.sections.length ≤ 5) :
    ∀ s ∈ (generateRun (some b) (some doc) aud).backendCalls,
      containsSubstr s truncationMarker = true
      ∨ containsSubstr s truncationMarkerMost = true := by
  have hinput : aiInputOf doc = positionalTruncate doc.text := by
    unfold aiInputOf
    rw [if_pos hL]
    unfold largeInputText
    rw [if_neg (fun hcon => absurd hcon.2 (by omega))]
  intro s hs
  simp only [generateRun] at hs
  split_ifs at hs with h1 h2 h3 h4
  · simp at hs
  · simp at hs
  · simp at hs
  · simp at hs
  · cases hout : b (aiInputOf doc) aud (decide (20000 < doc.text.length)) with
    | ok p =>
      rw [hout] at hs
      simp only [List.mem_singleton] at hs
      subst hs
      rw [hinput]
      exact positionalTruncate_marker doc.text
    | malformed =>
      rw [hout] at hs
      simp only [List.mem_singleton] at hs
      subst hs
      rw [hinput]
      exact positionalTruncate_marker doc.text
    | errTimeout =>
      rw [hout] at hs
      simp only [List.mem_singleton] at hs
      subst hs
      rw [hinput]
      exact positionalTruncate_marker doc.text
    | errConnection =>
      rw [hout] at hs
      simp only [List.mem_singleton] at hs
      subst hs
      rw [hinput]
      exact positionalTruncate_marker doc.text
    | errRateLimit =>
      rw [hout] at hs
      simp only [List.mem_singleton] at hs
      subst hs
      rw [hinput]
      exact positionalTruncate_marker doc.text
    | errOther =>
      rw [hout] at hs
      simp only [List.mem_singleton] at hs
      subst hs
      rw [hinput]
      exact positionalTruncate_marker doc.text
    | hang =>
      rw [hout] at hs
      simp only [List.mem_singleton] at hs
      subst hs
      rw [hinput]
      exact positionalTruncate_marker doc.text

/-- C3 witness: the amended theorem applied to a 20001-character document
with no structured sections, at the one recorded backend call. -/
theorem positional_truncation_marker_witness :
    containsSubstr (aiInputOf { text := bigText20001 }) truncationMarker = true
    ∨ containsSubstr (aiInputOf { text := bigText20001 }) truncationMarkerMost = true := by
  have hlen : ({ text := bigText20001 } : DocumentData).text.length = 20001 := by
    rw [show ({ text := bigText20001 } : DocumentData).text = bigText20001 from rfl,
      bigText20001_length]
  refine positional_truncation_marker (fun _ _ _ => BackendOutcome.errTimeout)
    { text := bigText20001 } "general" (by omega) (by decide) _ ?_
  have hrun := generateRun_failure (fun _ _ _ => BackendOutcome.errTimeout)
    { text := bigText20001 } "general" rfl (by decide)
    (by
      intro hcon
      have h0 := congrArg String.length hcon
      rw [hlen] at h0
      rw [show ("" : String).length = 0 from rfl] at h0
      omega)
    (by omega)
    rfl
  rw [hrun]
  exact List.mem_singleton.mpr rfl

/-- A 16 MB PDF file with one extractable image. -/
def pdf20MB : PdfFile :=
  { file_size := 16777216, text := "x", extractedImages := [⟨"img0", "Page 1"⟩] }

/-- C9 counterexample: a 16 MB PDF exceeds the 15 MB large-file
threshold, so the claim requires image extraction to be skipped entirely;
the code still returns the extracted images and only sets the
skip-generation flag. -/
theorem pdf_large_threshold_counterexample :
    (process_document_pdf pdf20MB).skip_ai_processing = true
    ∧ (process_document_pdf pdf20MB).images = [⟨"img0", "Page 1"⟩]
    ∧ ([(⟨"img0", "Page 1"⟩ : ImageData)] : List ImageData) ≠ [] := by
  refine ⟨by decide, by decide, by decide⟩

/-- C9 (amended): beyond the 15 MB large-file threshold the PDF branch
sets the flag that bypasses downstream generation (and below it the flag
stays unset); image extraction is skipped - enforced before any
extraction attempt by passing the skip flag into the reader - exactly
beyond the 25 MB very-large threshold, and below that threshold the
extracted images are returned. -/
theorem pdf_size_policy (f : PdfFile) :
    (15728640 < f.file_size → (process_document_pdf f).skip_ai_processing = true)
    ∧ (f.file_size ≤ 15728640 → (process_document_pdf f).skip_ai_processing = false)
    ∧ (26214400 < f.file_size → (process_document_pdf f).images = [])
    ∧ (f.file_size ≤ 26214400 → (process_document_pdf f).images = f.extractedImages) := by
  unfold process_document_pdf process_pdf
  refine ⟨fun h => ?_, fun h => ?_, fun h => ?_, fun h => ?_⟩
  · simp [h]
  · simp [show ¬ 15728640 < f.file_size by omega]
  · simp [h, show 15728640 < f.file_size by omega]
  · simp [show ¬ 26214400 < f.file_size by omega]

/-- C9 witness: the amended theorem applied to a 27 MB PDF. -/
theorem pdf_size_policy_witness :
    (process_document_pdf { file_size := 27000000 }).images = []
    ∧ (process_document_pdf { file_size := 27000000 }).skip_ai_processing = true :=
  ⟨(pdf_size_policy { file_size := 27000000 }).2.2.1 (by decide),
   (pdf_size_policy { file_size := 27000000 }).1 (by decide)⟩

/-- C8 (code defect evaluation): the TXT branch reads with the
replacement policy, so an invalid UTF-8 byte yields the replacement
character with status success, and the legacy-encoding fallback chain
is never consulted: latin-1 would decode the same byte to a different
character.  The `except UnicodeDecodeError` handler of the source that
implements the claimed fallback chain and fatal error is unreachable. -/
theorem txt_decode_replace_divergence :
    (process_document_txt [0xFF]).status = "success"
    ∧ (process_document_txt [0xFF]).text = "�"
    ∧ latin1Decode [0xFF] = "ÿ"
    ∧ ("�" : String) ≠ "ÿ" := by
  refine ⟨by decide, by decide, by decide, by decide⟩

end CaseRelay
